import Mathlib

/-!
Shallow embedding of the Stateless-HTTP server (src/server/http.go) and of the
resilience layer documented in src/www/docs/pages/clients/transports.mdx
(ManagedStdioClient, ResilientSSEClient), together with theorems settling the
claims about them.
-/

namespace MCP

/-- Helper for `strContains`: scans the haystack character list, testing at each
position whether the needle is a prefix of the remaining suffix. -/
def containsAux (sub : List Char) : List Char → Bool
  | [] => sub.isEmpty
  | c :: rest => sub.isPrefixOf (c :: rest) || containsAux sub rest

/-- Embedding of Go `strings.Contains(s, sub)`: true iff `sub` occurs as a
contiguous substring of `s` (true when `sub` is empty). -/
def strContains (s sub : String) : Bool := containsAux sub.toList s.toList

/-- Go `http.MethodGet`. -/
def MethodGet : String := "GET"

/-- Go `http.MethodPost`. -/
def MethodPost : String := "POST"

/-- The parts of an inbound HTTP request that the Stateless-HTTP handler reads:
method, URL path, the `Accept` and `Content-Type` headers (empty string when the
header is absent, matching Go's `Header.Get`), and the body. -/
structure HTTPRequest where
  method : String
  path : String
  accept : String
  contentType : String
  body : String

/-- A JSON-RPC request id value: string or integer (per the wire envelope). -/
inductive JSONRPCIdValue where
  | str (s : String)
  | num (n : Int)
deriving DecidableEq

/-- Modelled from the spec: `mcp.PARSE_ERROR`, the standard JSON-RPC 2.0 parse
error code. The constant is referenced by src/server/http.go but defined
outside the provided sources; the spec calls it the "standard PARSE_ERROR
code" of JSON-RPC 2.0, which is -32700. -/
def PARSE_ERROR : Int := -32700

/-- Modelled from the spec: the JSON-RPC 2.0 error envelope built by
`createErrorResponse` (referenced by `writeJSONRPCError` in src/server/http.go
but defined outside the provided sources). Per the spec's wire envelope a
response error object carries the id (null here modelled as `none`), an error
code and a message. -/
structure JSONRPCErrorResponse where
  jsonrpc : String
  id : Option JSONRPCIdValue
  code : Int
  message : String
deriving DecidableEq

/-- Modelled from the spec: `createErrorResponse id code message` builds the
JSON-RPC 2.0 error envelope with the given id (null = `none`), code and
message. -/
def createErrorResponse (id : Option JSONRPCIdValue) (code : Int)
    (message : String) : JSONRPCErrorResponse :=
  { jsonrpc := "2.0", id := id, code := code, message := message }

/-- What the handler wrote as the HTTP response body: nothing, plain text
(`http.Error`), an encoded JSON-RPC error envelope, or an encoded handler
response of type `β`. -/
inductive RespBody (β : Type) where
  | empty
  | text (msg : String)
  | envelope (e : JSONRPCErrorResponse)
  | result (resp : β)

/-- The observable HTTP response: status code, the `Content-Type` header, if
set, and the body. `β` is the type of encoded handler responses. -/
structure HTTPResponse (β : Type) where
  status : Nat
  contentType : Option String
  body : RespBody β

/-- Embedding of Go `http.Error(w, msg, code)`: plain-text body (with trailing
newline) and the given status code. -/
def httpError (β : Type) (msg : String) (code : Nat) : HTTPResponse β :=
  { status := code
    contentType := some "text/plain; charset=utf-8"
    body := RespBody.text (msg ++ "\n") }

/-- Embedding of `StatelessHTTPServer.writeJSONRPCError` (src/server/http.go):
sets Content-Type to application/json, writes status 400 (`StatusBadRequest`)
and encodes `createErrorResponse id code message` as the body. -/
def writeJSONRPCError (β : Type) (id : Option JSONRPCIdValue) (code : Int)
    (message : String) : HTTPResponse β :=
  { status := 400
    contentType := some "application/json"
    body := RespBody.envelope (createErrorResponse id code message) }

/-- Embedding of `StatelessHTTPServer.processMessage` (src/server/http.go).
The JSON decoding of the body and the wrapped `MCPServer.HandleMessage` are
parameters (`decode` and `handleMessage`): the codec and the wrapped server
live outside this file's sources, and the spec treats both as opaque
interfaces. `decode r.body = none` models a body that is not well-formed JSON;
`handleMessage m = none` models a Notification (Go `nil` response). -/
def processMessage {α β : Type} (decode : String → Option α)
    (handleMessage : α → Option β) (r : HTTPRequest) : HTTPResponse β :=
  if !(strContains r.accept "application/json")
      && !(strContains r.accept "text/event-stream") then
    httpError β
      "Not Acceptable: Client must accept both application/json and text/event-stream"
      406
  else if r.contentType != "application/json" then
    httpError β "Unsupported Media Type: Content-Type must be application/json" 415
  else if r.method == MethodGet then
    httpError β "Method Not Allowed" 405
  else if r.method != MethodPost then
    httpError β "Method Not Allowed" 405
  else
    match decode r.body with
    | none => writeJSONRPCError β none PARSE_ERROR "Parse error"
    | some m =>
      match handleMessage m with
      | some response =>
        { status := 200
          contentType := some "application/json"
          body := RespBody.result response }
      | none =>
        { status := 202, contentType := none, body := RespBody.empty }

/-- A decode function that rejects every body (used to instantiate theorems at
paths that never reach decoding, and for the parse-error path). -/
def decodeNone : String → Option Unit := fun _ => none

/-- A decode function that accepts every body as the unit raw message. -/
def decodeSome : String → Option Unit := fun _ => some ()

/-- A HandleMessage that returns `none` for every message (a Notification). -/
def handleNone : Unit → Option Unit := fun _ => none

/-- Output sink of a standard-library `log.Logger` (its `io.Writer`): the
process standard error stream, the discarding sink (`io.Discard`), or some
other writer. -/
inductive LogWriter where
  | stderrOut
  | discard
  | other
deriving DecidableEq

/-- Go `log.LstdFlags` (= `Ldate | Ltime` = 3). -/
def LstdFlags : Nat := 3

/-- Embedding of a Go `log.Logger` as built by `log.New(out, prefix, flag)`:
its output sink, prefix string (`pfx`) and flag bits. -/
structure Logger where
  out : LogWriter
  pfx : String
  flag : Nat
deriving DecidableEq

/-- The logger built by `NewStatelessHTTPServer` (src/server/http.go lines
59-63): `log.New(os.Stderr, "", log.LstdFlags)`. -/
def defaultErrLogger : Logger :=
  { out := LogWriter.stderrOut, pfx := "", flag := LstdFlags }

/-- A logger discards all output exactly when its sink is the discarding
writer. -/
def logDiscards (l : Logger) : Bool := l.out == LogWriter.discard

/-- The wrapped MCP server, as far as this slice of the sources constructs it
(`NewMCPServer("test", "1.0.0")` in the test file): a name and a version. -/
structure MCPServer where
  name : String
  version : String
deriving DecidableEq

/-- Embedding of `NewMCPServer`. -/
def NewMCPServer (name version : String) : MCPServer :=
  { name := name, version := version }

/-- A request context: a bag of injected values (the doc comment on
`StatelessHTTPContextFunc` mentions injecting context values from environment
variables). -/
def RequestContext := List (String × String)

/-- Embedding of `StatelessHTTPContextFunc` (src/server/http.go line 19): a
function from a context to a possibly modified context. -/
def StatelessHTTPContextFunc := RequestContext → RequestContext

/-- Embedding of the `StatelessHTTPServer` struct (src/server/http.go lines
24-33): the wrapped server, the base path, the error logger and the optional
context function (`none` models Go's nil). The `http.Server` handle and the
mutex carry no data relevant to the claims. -/
structure StatelessHTTPServer where
  server : MCPServer
  basePath : String
  errLogger : Logger
  contextFunc : Option StatelessHTTPContextFunc

/-- Embedding of `StatelessHTTPOption`: Go mutates the server in place; here an
option is a state transformer. -/
def StatelessHTTPOption := StatelessHTTPServer → StatelessHTTPServer

/-- Embedding of `WithStatelessHTTPContextFunc`. -/
def WithStatelessHTTPContextFunc (fn : StatelessHTTPContextFunc) :
    StatelessHTTPOption :=
  fun s => { s with contextFunc := some fn }

/-- Embedding of `WithHTTPBasePath`. -/
def WithHTTPBasePath (basePath : String) : StatelessHTTPOption :=
  fun s => { s with basePath := basePath }

/-- Embedding of `NewStatelessHTTPServer` (src/server/http.go lines 55-71):
builds the struct literal with the wrapped server, base path "/" and the
default error logger, then applies each option in order. -/
def NewStatelessHTTPServer (server : MCPServer)
    (opts : List StatelessHTTPOption) : StatelessHTTPServer :=
  opts.foldl (fun svr opt => opt svr)
    { server := server
      basePath := "/"
      errLogger := defaultErrLogger
      contextFunc := none }

/-- Embedding of `StatelessHTTPServer.ServeHTTP` (src/server/http.go lines
173-181): dispatch to `processMessage` on the base path, `http.NotFound`
elsewhere. -/
def serveHTTP {α β : Type} (s : StatelessHTTPServer)
    (decode : String → Option α) (handleMessage : α → Option β)
    (r : HTTPRequest) : HTTPResponse β :=
  if r.path == s.basePath then processMessage decode handleMessage r
  else httpError β "404 page not found" 404

/-- Go `time.Second` in nanoseconds; the base delay of the reconnect backoff in
`ResilientSSEClient.reconnectLoop` (transports.mdx): `backoff :=
time.Duration(attempt) * time.Second`. -/
def baseDelay : Nat := 1000000000

/-- The backoff computed for a reconnection attempt in
`ResilientSSEClient.reconnectLoop`: `time.Duration(attempt) * time.Second`. -/
def reconnectBackoff (attempt : Nat) : Nat := attempt * baseDelay

/-- The inner `for attempt := 1; attempt <= 5; attempt++` loop of
`ResilientSSEClient.reconnectLoop`, abstracted over which attempts succeed
(`succ attempt = true` means `rsc.connect()` returned nil on that attempt).
Returns the list of delays waited, in order: each failed attempt waits its
backoff and continues; a successful attempt breaks out. The second argument is
the number of attempts remaining. -/
def reconnectGo (succ : Nat → Bool) : Nat → Nat → List Nat
  | _, 0 => []
  | attempt, fuel + 1 =>
    if succ attempt then []
    else reconnectBackoff attempt :: reconnectGo succ (attempt + 1) fuel

/-- The delays waited by one firing of the reconnect loop (attempts 1 through
5, per the loop bounds in `ResilientSSEClient.reconnectLoop`). -/
def reconnectDelays (succ : Nat → Bool) : List Nat := reconnectGo succ 1 5

/-- Capacity of the reconnect/restart trigger channel: both
`ResilientSSEClient.reconnectCh` and `ManagedStdioClient.restartChan` are
`make(chan struct\x7b\x7d, 1)`. -/
def triggerCapacity : Nat := 1

/-- Embedding of the non-blocking send used on failure detection (the
`select` with a `default` branch in `CallTool`/`monitorProcess`): enqueue the
trigger if the channel has room, otherwise drop it. `pending` is the number of
buffered triggers. -/
def raiseTrigger (pending : Nat) : Nat :=
  if pending < triggerCapacity then pending + 1 else pending

/-- The reachable buffer occupancies of the trigger channel: initially empty;
a failure signal performs the non-blocking send; the reconnect loop consumes
one pending trigger. -/
inductive TriggerReach : Nat → Prop where
  | init : TriggerReach 0
  | raise {n : Nat} : TriggerReach n → TriggerReach (raiseTrigger n)
  | consume {n : Nat} : TriggerReach (n + 1) → TriggerReach n

/-- The atomic actions a `Close` implementation performs, in the order its
body lists them: cancel the context, wait on the WaitGroup for the background
loop to exit, close the underlying client. -/
inductive CloseStep where
  | cancelCtx
  | waitGroup
  | closeClient
deriving DecidableEq

/-- `ManagedStdioClient.Close` (transports.mdx): `msc.cancel()`,
`msc.wg.Wait()`, then close the inner client. -/
def managedStdioCloseProgram : List CloseStep :=
  [CloseStep.cancelCtx, CloseStep.waitGroup, CloseStep.closeClient]

/-- `ResilientSSEClient.Close` (transports.mdx): `rsc.cancel()`, then (under
the mutex) close the inner client — no wait on the reconnect loop. -/
def resilientSSECloseProgram : List CloseStep :=
  [CloseStep.cancelCtx, CloseStep.closeClient]

/-- Joint state of the owner's `Close` call and its background loop:
whether the context has been cancelled, whether the background loop has
exited (returned, running its deferred `wg.Done` if any), and the program
counter of the `Close` body. -/
structure OwnerState where
  cancelled : Bool
  loopExited : Bool
  pc : Nat
deriving DecidableEq

/-- Interleaved small steps of the background loop and the `Close` body
running the given program. The loop may exit once the context is cancelled
(its `select` observes `ctx.Done()`); `Close` executes its steps in order,
and the WaitGroup wait is enabled only after the loop has exited. -/
inductive OwnerStep (prog : List CloseStep) : OwnerState → OwnerState → Prop where
  | loopExit (s : OwnerState) (hc : s.cancelled = true) :
      OwnerStep prog s { s with loopExited := true }
  | doCancel (s : OwnerState)
      (h : prog.get? s.pc = some CloseStep.cancelCtx) :
      OwnerStep prog s { s with cancelled := true, pc := s.pc + 1 }
  | doWait (s : OwnerState)
      (h : prog.get? s.pc = some CloseStep.waitGroup)
      (hl : s.loopExited = true) :
      OwnerStep prog s { s with pc := s.pc + 1 }
  | doCloseClient (s : OwnerState)
      (h : prog.get? s.pc = some CloseStep.closeClient) :
      OwnerStep prog s { s with pc := s.pc + 1 }

/-- States reachable from the initial state (loop running, nothing cancelled,
`Close` about to start) by interleaved steps. -/
inductive CloseReachable (prog : List CloseStep) : OwnerState → Prop where
  | init : CloseReachable prog { cancelled := false, loopExited := false, pc := 0 }
  | step {s t : OwnerState} :
      CloseReachable prog s → OwnerStep prog s t → CloseReachable prog t

/-- `Close` has returned: its program counter is past the last step of its
body. -/
def closeReturned (prog : List CloseStep) (s : OwnerState) : Prop :=
  s.pc = prog.length

/-- The Accept guard of `processMessage` passes (it rejects only when the
header contains neither media type), restated as: the header contains at least
one of the two. -/
theorem accept_guard_false {a : String}
    (ha : (strContains a "application/json"
        || strContains a "text/event-stream") = true) :
    (!(strContains a "application/json")
        && !(strContains a "text/event-stream")) = false := by
  cases hA : strContains a "application/json" <;>
    cases hB : strContains a "text/event-stream" <;> simp_all

/-- C1 counterexample: a request whose Accept header advertises only
application/json — hence not both media types — is not rejected with 406; it
passes the Accept check and (being a GET) receives 405. -/
theorem C1_counterexample :
    strContains "application/json" "text/event-stream" = false ∧
    (processMessage decodeNone handleNone
      { method := "GET", path := "/", accept := "application/json",
        contentType := "application/json", body := "" }).status = 405 :=
  ⟨by decide, by decide⟩

/-- C1 (amended): processMessage rejects with HTTP 406 every request whose
Accept header advertises neither application/json nor text/event-stream. -/
theorem C1_amended {α β : Type} (decode : String → Option α)
    (handleMessage : α → Option β) (r : HTTPRequest)
    (h1 : strContains r.accept "application/json" = false)
    (h2 : strContains r.accept "text/event-stream" = false) :
    (processMessage decode handleMessage r).status = 406 := by
  unfold processMessage
  simp [h1, h2, httpError]

/-- C1 witness: the amended theorem applied to a concrete request with an
empty Accept header. -/
theorem C1_witness :
    (processMessage decodeNone handleNone
      { method := "GET", path := "/", accept := "",
        contentType := "", body := "" }).status = 406 :=
  C1_amended decodeNone handleNone _ (by decide) (by decide)

/-- C2 counterexample: a GET to the message path whose Accept header is empty
receives 406 (the Accept check runs before the method check), not 405. -/
theorem C2_counterexample :
    (processMessage decodeNone handleNone
      { method := "GET", path := "/", accept := "",
        contentType := "", body := "" }).status = 406 ∧
    ¬ (processMessage decodeNone handleNone
      { method := "GET", path := "/", accept := "",
        contentType := "", body := "" }).status = 405 :=
  ⟨by decide, by decide⟩

/-- C2 (amended): a GET request to the message path that passes the Accept and
Content-Type validations (which run first) receives HTTP 405. -/
theorem C2_amended {α β : Type} (decode : String → Option α)
    (handleMessage : α → Option β) (r : HTTPRequest)
    (hm : r.method = "GET")
    (ha : (strContains r.accept "application/json"
        || strContains r.accept "text/event-stream") = true)
    (hct : r.contentType = "application/json") :
    (processMessage decode handleMessage r).status = 405 := by
  unfold processMessage
  simp [accept_guard_false ha, hct, hm, MethodGet, httpError]

/-- C2 witness: the amended theorem applied to a concrete well-headed GET. -/
theorem C2_witness :
    (processMessage decodeNone handleNone
      { method := "GET", path := "/", accept := "application/json",
        contentType := "application/json", body := "" }).status = 405 :=
  C2_amended decodeNone handleNone _ rfl (by decide) rfl

/-- C3 counterexample: a POST with Content-Type text/plain but an empty Accept
header receives 406 (the Accept check runs first), not 415 — so 415 does not
hold regardless of the other headers. -/
theorem C3_counterexample :
    (processMessage decodeNone handleNone
      { method := "POST", path := "/", accept := "",
        contentType := "text/plain", body := "hello" }).status = 406 ∧
    ¬ (processMessage decodeNone handleNone
      { method := "POST", path := "/", accept := "",
        contentType := "text/plain", body := "hello" }).status = 415 :=
  ⟨by decide, by decide⟩

/-- C3 (amended): a POST whose Accept header advertises application/json or
text/event-stream and whose Content-Type is text/plain receives HTTP 415,
regardless of the body. -/
theorem C3_amended {α β : Type} (decode : String → Option α)
    (handleMessage : α → Option β) (r : HTTPRequest)
    (_hm : r.method = "POST")
    (ha : (strContains r.accept "application/json"
        || strContains r.accept "text/event-stream") = true)
    (hct : r.contentType = "text/plain") :
    (processMessage decode handleMessage r).status = 415 := by
  unfold processMessage
  have hne : (("text/plain" : String) != "application/json") = true := by decide
  simp [accept_guard_false ha, hct, hne, httpError]

/-- C3 witness: the amended theorem applied to a concrete request. -/
theorem C3_witness :
    (processMessage decodeNone handleNone
      { method := "POST", path := "/", accept := "application/json",
        contentType := "text/plain", body := "x" }).status = 415 :=
  C3_amended decodeNone handleNone _ rfl (by decide) rfl

/-- C4: a POST to the message path that passes the Accept and Content-Type
validations and whose body fails to decode as JSON receives HTTP 400 with a
JSON-RPC error envelope carrying the PARSE_ERROR code and a null id. -/
theorem C4_parse_error {α β : Type} (decode : String → Option α)
    (handleMessage : α → Option β) (r : HTTPRequest)
    (hm : r.method = "POST")
    (ha : (strContains r.accept "application/json"
        || strContains r.accept "text/event-stream") = true)
    (hct : r.contentType = "application/json")
    (hb : decode r.body = none) :
    (processMessage decode handleMessage r).status = 400 ∧
    (processMessage decode handleMessage r).body =
      RespBody.envelope (createErrorResponse none PARSE_ERROR "Parse error") ∧
    (processMessage decode handleMessage r).contentType =
      some "application/json" := by
  unfold processMessage
  have hg : (("POST" : String) == "GET") = false := by decide
  have hp : (("POST" : String) != "POST") = false := by decide
  simp [accept_guard_false ha, hct, hm, MethodGet, MethodPost, hg, hp, hb,
    writeJSONRPCError]

/-- C4 witness: the parse-error theorem applied to a concrete POST whose body
rejects decoding. -/
theorem C4_witness :
    (processMessage decodeNone handleNone
      { method := "POST", path := "/",
        accept := "application/json, text/event-stream",
        contentType := "application/json", body := "not json" }).status = 400 ∧
    (processMessage decodeNone handleNone
      { method := "POST", path := "/",
        accept := "application/json, text/event-stream",
        contentType := "application/json", body := "not json" }).body =
      RespBody.envelope (createErrorResponse none PARSE_ERROR "Parse error") ∧
    (processMessage decodeNone handleNone
      { method := "POST", path := "/",
        accept := "application/json, text/event-stream",
        contentType := "application/json", body := "not json" }).contentType =
      some "application/json" :=
  C4_parse_error decodeNone handleNone _ rfl (by decide) rfl rfl

/-- C5: a POST to the message path that passes header validation and decodes
to a well-formed payload receives: HTTP 200 with the JSON-encoded response and
Content-Type application/json when HandleMessage returns a response; HTTP 202
with an empty body when HandleMessage returns nil (a Notification). -/
theorem C5_dispatch {α β : Type} (decode : String → Option α)
    (handleMessage : α → Option β) (r : HTTPRequest)
    (hm : r.method = "POST")
    (ha : (strContains r.accept "application/json"
        || strContains r.accept "text/event-stream") = true)
    (hct : r.contentType = "application/json")
    (m : α) (hb : decode r.body = some m) :
    (∀ resp, handleMessage m = some resp →
      processMessage decode handleMessage r =
        { status := 200, contentType := some "application/json",
          body := RespBody.result resp }) ∧
    (handleMessage m = none →
      processMessage decode handleMessage r =
        { status := 202, contentType := none, body := RespBody.empty }) := by
  unfold processMessage
  have hg : (("POST" : String) == "GET") = false := by decide
  have hp : (("POST" : String) != "POST") = false := by decide
  constructor
  · intro resp hresp
    simp [accept_guard_false ha, hct, hm, MethodGet, MethodPost, hg, hp, hb,
      hresp]
  · intro hn
    simp [accept_guard_false ha, hct, hm, MethodGet, MethodPost, hg, hp, hb,
      hn]

/-- C5 witness: the dispatch theorem applied to a concrete Notification (the
wrapped handler returns nil), yielding 202 with an empty body. -/
theorem C5_witness :
    processMessage decodeSome handleNone
      { method := "POST", path := "/", accept := "text/event-stream",
        contentType := "application/json", body := "2" } =
      { status := 202, contentType := none, body := RespBody.empty } :=
  (C5_dispatch decodeSome handleNone _ rfl (by decide) rfl () rfl).2 rfl

/-- C6: evaluating `NewStatelessHTTPServer` with no options shows the default
error logger writes to the standard error stream with `LstdFlags` — it is not
the discarding sink, although the function's doc comment and the inline
comment both promise a default logger that discards all output. -/
theorem C6_default_logger_not_discarding :
    (NewStatelessHTTPServer (NewMCPServer "test" "1.0.0") []).errLogger =
      { out := LogWriter.stderrOut, pfx := "", flag := LstdFlags } ∧
    logDiscards
      (NewStatelessHTTPServer (NewMCPServer "test" "1.0.0") []).errLogger =
      false :=
  ⟨rfl, rfl⟩

/-- C7: when the first three reconnection attempts fail, the delays waited are
1, 2 and 3 times the base delay (linear backoff), hence strictly increasing
across the three consecutive failures. -/
theorem C7_linear_backoff (succ : Nat → Bool)
    (h1 : succ 1 = false) (h2 : succ 2 = false) (h3 : succ 3 = false) :
    (reconnectDelays succ).take 3 =
      [1 * baseDelay, 2 * baseDelay, 3 * baseDelay] ∧
    reconnectBackoff 1 < reconnectBackoff 2 ∧
    reconnectBackoff 2 < reconnectBackoff 3 := by
  refine ⟨?_, by decide, by decide⟩
  simp [reconnectDelays, reconnectGo, h1, h2, h3, reconnectBackoff]

/-- C7 witness: the backoff theorem applied to the outcome sequence that fails
attempts 1-3 and succeeds on the 4th (the spec's scenario). -/
theorem C7_witness :
    (reconnectDelays (fun n => n == 4)).take 3 =
      [1 * baseDelay, 2 * baseDelay, 3 * baseDelay] ∧
    reconnectBackoff 1 < reconnectBackoff 2 ∧
    reconnectBackoff 2 < reconnectBackoff 3 :=
  C7_linear_backoff (fun n => n == 4) rfl rfl rfl

/-- C8: every reachable occupancy of the trigger channel is at most its
capacity 1, and a failure signal raised while a trigger is already pending
leaves the channel unchanged (the signal is dropped). -/
theorem C8_single_flight :
    (∀ n, TriggerReach n → n ≤ triggerCapacity) ∧
    raiseTrigger triggerCapacity = triggerCapacity := by
  constructor
  · intro n h
    induction h with
    | init => decide
    | raise h ih =>
      simp only [raiseTrigger, triggerCapacity] at ih ⊢
      split <;> omega
    | consume h ih =>
      simp only [triggerCapacity] at ih ⊢
      omega
  · decide

/-- C8 witness: the bound applied to the occupancy reached by one raised
failure signal. -/
theorem C8_witness : raiseTrigger 0 ≤ triggerCapacity :=
  C8_single_flight.1 (raiseTrigger 0) (TriggerReach.raise TriggerReach.init)

/-- Helper for C9: in the ManagedStdioClient close body the cancel step sits
only at position 0. -/
theorem managed_get_cancel {n : Nat}
    (h : managedStdioCloseProgram.get? n = some CloseStep.cancelCtx) :
    n = 0 := by
  rcases n with _ | _ | _ | n
  · rfl
  · simp [managedStdioCloseProgram] at h
  · simp [managedStdioCloseProgram] at h
  · simp [managedStdioCloseProgram] at h

/-- Helper for C9: in the ManagedStdioClient close body the client-close step
sits only at position 2, after the WaitGroup wait. -/
theorem managed_get_close {n : Nat}
    (h : managedStdioCloseProgram.get? n = some CloseStep.closeClient) :
    n = 2 := by
  rcases n with _ | _ | _ | n
  · simp [managedStdioCloseProgram] at h
  · simp [managedStdioCloseProgram] at h
  · rfl
  · simp [managedStdioCloseProgram] at h

/-- Helper for C9: along every reachable execution of
`ManagedStdioClient.Close`, once the program counter has passed the WaitGroup
wait (pc ≥ 2) the background loop has exited. -/
theorem managed_close_invariant {s : OwnerState}
    (h : CloseReachable managedStdioCloseProgram s) :
    2 ≤ s.pc → s.loopExited = true := by
  induction h with
  | init =>
    intro h2
    exact absurd h2 (by decide)
  | step hr hstep ih =>
    cases hstep with
    | loopExit hc =>
      intro _
      rfl
    | doCancel h =>
      intro h2
      have hpc := managed_get_cancel h
      rw [hpc] at h2
      simp at h2
    | doWait h hl =>
      intro _
      exact hl
    | doCloseClient h =>
      intro _
      have hpc := managed_get_close h
      exact ih (by omega)

/-- C9 counterexample: running `ResilientSSEClient.Close` concurrently with
its reconnect loop can reach a state where Close has returned while the loop
has not yet exited — Close cancels the loop but never waits for it. -/
theorem C9_counterexample :
    CloseReachable resilientSSECloseProgram
      { cancelled := true, loopExited := false, pc := 2 } ∧
    closeReturned resilientSSECloseProgram
      { cancelled := true, loopExited := false, pc := 2 } ∧
    ({ cancelled := true, loopExited := false, pc := 2 } :
      OwnerState).loopExited = false := by
  refine ⟨?_, rfl, rfl⟩
  have h0 : CloseReachable resilientSSECloseProgram
      { cancelled := false, loopExited := false, pc := 0 } :=
    CloseReachable.init
  have h1 : CloseReachable resilientSSECloseProgram
      { cancelled := true, loopExited := false, pc := 1 } :=
    CloseReachable.step h0 (OwnerStep.doCancel _ rfl)
  exact CloseReachable.step h1 (OwnerStep.doCloseClient _ rfl)

/-- C9 (amended): `ManagedStdioClient.Close` cancels the monitor loop and, via
its WaitGroup wait, cannot return before the loop has exited; in every
reachable state in which it has returned the loop has exited.
(`ResilientSSEClient.Close`, by contrast, cancels its reconnect loop but
returns without waiting for it, per the counterexample.) -/
theorem C9_amended_managed_waits {s : OwnerState}
    (h : CloseReachable managedStdioCloseProgram s)
    (hr : closeReturned managedStdioCloseProgram s) :
    s.loopExited = true := by
  apply managed_close_invariant h
  unfold closeReturned managedStdioCloseProgram at hr
  simp at hr
  omega

/-- C9 witness: the amended theorem applied to a concrete completed execution
of `ManagedStdioClient.Close` (cancel, loop exits, wait succeeds, client
closed). -/
theorem C9_witness :
    ({ cancelled := true, loopExited := true, pc := 3 } :
      OwnerState).loopExited = true := by
  have h0 : CloseReachable managedStdioCloseProgram
      { cancelled := false, loopExited := false, pc := 0 } :=
    CloseReachable.init
  have h1 : CloseReachable managedStdioCloseProgram
      { cancelled := true, loopExited := false, pc := 1 } :=
    CloseReachable.step h0 (OwnerStep.doCancel _ rfl)
  have h2 : CloseReachable managedStdioCloseProgram
      { cancelled := true, loopExited := true, pc := 1 } :=
    CloseReachable.step h1 (OwnerStep.loopExit _ rfl)
  have h3 : CloseReachable managedStdioCloseProgram
      { cancelled := true, loopExited := true, pc := 2 } :=
    CloseReachable.step h2 (OwnerStep.doWait _ rfl rfl)
  have h4 : CloseReachable managedStdioCloseProgram
      { cancelled := true, loopExited := true, pc := 3 } :=
    CloseReachable.step h3 (OwnerStep.doCloseClient _ rfl)
  exact C9_amended_managed_waits h4 rfl

/-- Helper for C10: a fold of context-function options over any starting
server state leaves the base path and the wrapped server untouched. -/
theorem ctx_opts_preserve (fns : List StatelessHTTPContextFunc)
    (svr : StatelessHTTPServer) :
    ((fns.map WithStatelessHTTPContextFunc).foldl
        (fun s o => o s) svr).basePath = svr.basePath ∧
    ((fns.map WithStatelessHTTPContextFunc).foldl
        (fun s o => o s) svr).server = svr.server := by
  induction fns generalizing svr with
  | nil => exact ⟨rfl, rfl⟩
  | cons f fs ih =>
    simp only [List.map_cons, List.foldl_cons]
    exact ih (WithStatelessHTTPContextFunc f svr)

/-- C10: constructing with no options yields base path "/" and stores exactly
the supplied MCPServer; the same holds under any list of context-function
options (the only other option kind); and appending an option to the option
list applies it last, i.e. options are applied in order. -/
theorem C10_constructor_defaults (s : MCPServer) :
    (NewStatelessHTTPServer s []).basePath = "/" ∧
    (NewStatelessHTTPServer s []).server = s ∧
    (∀ fns : List StatelessHTTPContextFunc,
      (NewStatelessHTTPServer s
        (fns.map WithStatelessHTTPContextFunc)).basePath = "/" ∧
      (NewStatelessHTTPServer s
        (fns.map WithStatelessHTTPContextFunc)).server = s) ∧
    ∀ (opts : List StatelessHTTPOption) (o : StatelessHTTPOption),
      NewStatelessHTTPServer s (opts ++ [o]) =
        o (NewStatelessHTTPServer s opts) := by
  refine ⟨rfl, rfl, ?_, ?_⟩
  · intro fns
    exact ctx_opts_preserve fns _
  · intro opts o
    simp [NewStatelessHTTPServer, List.foldl_append]

end MCP
